import Mathlib

/-!
Verification of the finalize reconciliation path of the roperator runtime
(src/runner/reconcile/finalize.rs).

The two async functions `handle_finalize` and `get_finalize_result` are
embedded as pure Lean functions.  All interaction with the outside world
(the handler invocation isolated on the blocking pool, the two possible
API patch calls, the completion-event channel) is resolved through an
explicit `World` oracle, and every externally visible side effect is
recorded in an effect trace, so that the theorems can speak about which
calls were issued, in which order, and what completion event was sent.
-/

deriving instance DecidableEq for Except

/-- Identity of a Kubernetes object: namespace plus name
(`K8sResource::get_object_id` in the source). -/
structure ObjectId where
  ns : String
  name : String
deriving DecidableEq

/-- The parent resource as the finalize path sees it: its identity, its
list of finalizer strings, and its current status payload (statuses are
JSON values in the source; the embedding keeps them abstract as strings). -/
structure K8sResource where
  id : ObjectId
  finalizers : List String
  status : Option String
deriving DecidableEq

/-- Mirror of `K8sResource::get_object_id`. -/
def K8sResource.get_object_id (r : K8sResource) : ObjectId := r.id

/-- Process-wide read-only configuration: the operator name (which is the
finalizer string the operator owns) and the parent resource type. -/
structure RuntimeConfig where
  operator_name : String
  parent_type : String
deriving DecidableEq

/-- `FinalizeResponse { retry, status }` returned by the user handler. -/
structure FinalizeResponse where
  retry : Option Nat
  status : Option String
deriving DecidableEq

/-- `SyncRequest`: the snapshot handed to the handler; the finalize path
only consumes its parent resource. -/
structure SyncRequest where
  parent : K8sResource
deriving DecidableEq

/-- `UpdateError`: handler failure, API/transport failure while patching,
or failure to join the isolated (spawn_blocking) execution. -/
inductive UpdateError where
  | HandlerError (msg : String)
  | ClientError (msg : String)
  | JoinError
deriving DecidableEq

/-- Outcome of the isolated handler invocation, as observed by the
orchestrator after awaiting the spawn_blocking join handle: the join
itself may fail, or it yields the handler result (error or response). -/
inductive JoinOutcome where
  | joinFailure
  | handlerErr (msg : String)
  | handlerOk (resp : FinalizeResponse)
deriving DecidableEq

/-- Outcome of one API patch call as decided by the transport. -/
inductive CallResult where
  | ok
  | transportErr (msg : String)
deriving DecidableEq

/-- The oracle resolving every external interaction of one finalize
attempt: what the isolated handler invocation produces, what each of the
two possible patch calls would return, and whether the completion channel
is still open. -/
structure World where
  join : JoinOutcome
  statusPatchResult : CallResult
  removePatchResult : CallResult
  channelOpen : Bool
deriving DecidableEq

/-- Modelled from the spec: `Patch::remove_finalizer` is not under src/.
The spec says it produces a patch whose sole effect is removing that
operator's finalizer entry from the resource's finalizer set, leaving all
other finalizers untouched; the patch is represented by the finalizer list
it would leave behind. -/
structure Patch where
  finalizers : List String
deriving DecidableEq

/-- Modelled from the spec: the finalizer-removal patch keeps every
finalizer except the operator's own entry. -/
def Patch.remove_finalizer (parent : K8sResource) (operator_name : String) : Patch :=
  { finalizers := parent.finalizers.filter (fun f => f ≠ operator_name) }

/-- The result carried by `EventType::UpdateOperationComplete`:
`Ok(retry)` with the optional retry delay, or `Err(())` — failure carries
no payload beyond the fact of failure. -/
inductive EventType where
  | UpdateOperationComplete (result : Except Unit (Option Nat))
deriving DecidableEq

/-- The completion event delivered to the controller loop, stamped with
the resource type, the resource id and the index key. -/
structure ResourceMessage where
  event_type : EventType
  resource_type : String
  resource_id : ObjectId
  index_key : Option String
deriving DecidableEq

/-- One externally visible side effect of a finalize attempt, in the
order it happens: the handler invocation on the blocking pool, a status
patch call, a finalizer-removal patch call, the retry-delay suspension,
the per-parent error-metric increment, and the attempt to send the
completion event (recording whether the channel was open and therefore
delivered). -/
inductive Effect where
  | handlerInvoked
  | statusPatch (resource_type : String) (id : ObjectId) (newStatus : Option String)
  | removeFinalizerPatch (resource_type : String) (id : ObjectId) (p : Patch)
  | sleep (d : Nat)
  | metricParentSyncError (id : ObjectId)
  | send (delivered : Bool) (m : ResourceMessage)
deriving DecidableEq

/-- Modelled from the spec: `does_finalizer_exist` is not under src/.
The operator's finalizer string is its operator name (the source passes
`runtime_config.operator_name` to `Patch::remove_finalizer`), and the
check is whether that string is present on the parent; the spec requires
it to be pure and side-effect-free. -/
def does_finalizer_exist (parent : K8sResource) (rc : RuntimeConfig) : Bool :=
  parent.finalizers.contains rc.operator_name

/-- Modelled from the spec: `update_status_if_different` is not under
src/.  The spec says the status is conditionally patched, only if it
differs from the resource's current status, to avoid no-op API calls; a
failing patch call is an API error (`UpdateError`). -/
def update_status_if_different (parent : K8sResource) (w : World) (rc : RuntimeConfig)
    (status : Option String) : Except UpdateError Unit × List Effect :=
  if status = parent.status then
    (Except.ok (), [])
  else
    match w.statusPatchResult with
    | CallResult.ok =>
        (Except.ok (), [Effect.statusPatch rc.parent_type parent.get_object_id status])
    | CallResult.transportErr e =>
        (Except.error (UpdateError.ClientError e),
          [Effect.statusPatch rc.parent_type parent.get_object_id status])

/-- Embedding of `remove_finalizer`: build the removal patch from the
parent and the operator name and issue one `patch_resource` call, mapping
a transport failure into `UpdateError`. -/
def remove_finalizer (w : World) (rc : RuntimeConfig) (parent : K8sResource) :
    Except UpdateError Unit × List Effect :=
  let patch := Patch.remove_finalizer parent rc.operator_name
  match w.removePatchResult with
  | CallResult.ok =>
      (Except.ok (), [Effect.removeFinalizerPatch rc.parent_type parent.get_object_id patch])
  | CallResult.transportErr e =>
      (Except.error (UpdateError.ClientError e),
        [Effect.removeFinalizerPatch rc.parent_type parent.get_object_id patch])

/-- Embedding of `get_finalize_result`: short-circuit when the operator's
finalizer is absent; otherwise run the handler isolated on the blocking
pool (a join failure or a handler error aborts with the corresponding
`UpdateError`), then either conditionally patch the status and sleep for
the retry delay, or remove the finalizer; the successful result is the
handler's retry value. -/
def get_finalize_result (request : SyncRequest) (w : World) (rc : RuntimeConfig) :
    Except UpdateError (Option Nat) × List Effect :=
  if does_finalizer_exist request.parent rc then
    match w.join with
    | JoinOutcome.joinFailure =>
        (Except.error UpdateError.JoinError, [Effect.handlerInvoked])
    | JoinOutcome.handlerErr e =>
        (Except.error (UpdateError.HandlerError e), [Effect.handlerInvoked])
    | JoinOutcome.handlerOk resp =>
        match resp.retry with
        | some delay =>
            match update_status_if_different request.parent w rc resp.status with
            | (Except.ok _, eff) =>
                (Except.ok (some delay),
                  Effect.handlerInvoked :: (eff ++ [Effect.sleep delay]))
            | (Except.error e, eff) =>
                (Except.error e, Effect.handlerInvoked :: eff)
        | none =>
            match remove_finalizer w rc request.parent with
            | (Except.ok _, eff) =>
                (Except.ok none, Effect.handlerInvoked :: eff)
            | (Except.error e, eff) =>
                (Except.error e, Effect.handlerInvoked :: eff)
  else
    (Except.ok none, [])

/-- The bundle destructured at the top of `handle_finalize` (the handler
object and client are resolved through the `World` oracle). -/
structure SyncHandler where
  request : SyncRequest
  runtime_config : RuntimeConfig
  parent_index_key : String
deriving DecidableEq

/-- The one `ResourceMessage` that `handle_finalize` constructs: the
completion result wrapped in `EventType::UpdateOperationComplete`,
stamped with the parent type, the parent id and the index key of the
bundle. -/
def completionMessage (h : SyncHandler) (r : Except Unit (Option Nat)) : ResourceMessage :=
  { event_type := EventType.UpdateOperationComplete r
    resource_type := h.runtime_config.parent_type
    resource_id := h.request.parent.get_object_id
    index_key := some h.parent_index_key }

/-- Embedding of `handle_finalize`: run `get_finalize_result`; on success
keep `Ok(retry)`, on failure increment the per-parent error metric and
degrade the result to `Err(())`; then build one `ResourceMessage` stamped
with the parent type, the parent id and the index key, and attempt to
send it (the send result is discarded, so a closed channel only changes
the `delivered` flag of the recorded attempt). -/
def handle_finalize (h : SyncHandler) (w : World) : List Effect :=
  match get_finalize_result h.request w h.runtime_config with
  | (Except.ok retry, eff) =>
      eff ++ [Effect.send w.channelOpen (completionMessage h (Except.ok retry))]
  | (Except.error _, eff) =>
      eff ++ [Effect.metricParentSyncError h.request.parent.get_object_id,
        Effect.send w.channelOpen (completionMessage h (Except.error ()))]

/-- Classifier: is the effect a status patch call. -/
def Effect.isStatusPatch : Effect → Bool
  | Effect.statusPatch _ _ _ => true
  | _ => false

/-- Classifier: is the effect a finalizer-removal patch call. -/
def Effect.isRemovePatch : Effect → Bool
  | Effect.removeFinalizerPatch _ _ _ => true
  | _ => false

/-- Classifier: is the effect a retry-delay suspension. -/
def Effect.isSleep : Effect → Bool
  | Effect.sleep _ => true
  | _ => false

/-- Classifier: is the effect a per-parent error-metric increment. -/
def Effect.isMetric : Effect → Bool
  | Effect.metricParentSyncError _ => true
  | _ => false

/-- Classifier: is the effect the isolated handler invocation. -/
def Effect.isHandlerCall : Effect → Bool
  | Effect.handlerInvoked => true
  | _ => false

/-- Number of status patch calls issued in a trace. -/
def countStatusPatches (eff : List Effect) : Nat :=
  eff.countP Effect.isStatusPatch

/-- Number of finalizer-removal patch calls issued in a trace. -/
def countRemovePatches (eff : List Effect) : Nat :=
  eff.countP Effect.isRemovePatch

/-- Number of retry-delay suspensions in a trace. -/
def countSleeps (eff : List Effect) : Nat :=
  eff.countP Effect.isSleep

/-- Number of per-parent error-metric increments in a trace. -/
def countMetrics (eff : List Effect) : Nat :=
  eff.countP Effect.isMetric

/-- Number of isolated handler invocations in a trace. -/
def countHandlerCalls (eff : List Effect) : Nat :=
  eff.countP Effect.isHandlerCall

/-- The completion events whose send was attempted in a trace. -/
def completions (eff : List Effect) : List ResourceMessage :=
  eff.filterMap (fun e => match e with
    | Effect.send _ m => some m
    | _ => none)

/-- The results carried by the completion events of a trace. -/
def sentResults (eff : List Effect) : List (Except Unit (Option Nat)) :=
  eff.filterMap (fun e => match e with
    | Effect.send _ m =>
        match m.event_type with
        | EventType.UpdateOperationComplete r => some r
    | _ => none)

/-- Erase the delivery flag of send attempts, keeping everything else of
the trace: two attempts equal up to `stripDelivered` did the same work
and sent the same completion event, differing only in whether the channel
accepted it. -/
def stripDelivered (eff : List Effect) : List Effect :=
  eff.map (fun e => match e with
    | Effect.send _ m => Effect.send true m
    | x => x)

/-- A concrete parent carrying the operator's finalizer next to one owned
by another controller. -/
def exParent : K8sResource :=
  { id := { ns := "default", name := "p1" }
    finalizers := ["my-operator", "other-controller"]
    status := some "old" }

/-- A concrete runtime configuration. -/
def exConfig : RuntimeConfig := { operator_name := "my-operator", parent_type := "Parent" }

/-- A concrete finalize bundle for `exParent`. -/
def exH : SyncHandler :=
  { request := { parent := exParent }, runtime_config := exConfig, parent_index_key := "k0" }

/-- A concrete bundle whose parent lacks the operator's finalizer. -/
def exHBare : SyncHandler :=
  { request := { parent := { exParent with finalizers := ["other-controller"] } }
    runtime_config := exConfig
    parent_index_key := "k0" }

/-- Handler response: finalized, no retry, with a status value. -/
def respTerminal : FinalizeResponse := { retry := none, status := some "s" }

/-- Handler response: retry in 5000 ms with a status differing from the
current one. -/
def respRetryNew : FinalizeResponse := { retry := some 5000, status := some "new" }

/-- Handler response: retry in 5000 ms with a status equal to the current
one. -/
def respRetrySame : FinalizeResponse := { retry := some 5000, status := some "old" }

/-- A world where every external call succeeds, parameterised by the
handler outcome. -/
def wOk (j : JoinOutcome) : World :=
  { join := j
    statusPatchResult := CallResult.ok
    removePatchResult := CallResult.ok
    channelOpen := true }

/-- World: handler finalizes, every call succeeds. -/
def exWTerminalOk : World := wOk (JoinOutcome.handlerOk respTerminal)

/-- World: handler finalizes but the removal patch fails in transport. -/
def exWTerminalErr : World :=
  { join := JoinOutcome.handlerOk respTerminal
    statusPatchResult := CallResult.ok
    removePatchResult := CallResult.transportErr "boom"
    channelOpen := true }

/-- World: handler asks for a retry with a changed status, calls succeed. -/
def exWRetryOk : World := wOk (JoinOutcome.handlerOk respRetryNew)

/-- World: handler asks for a retry with an unchanged status. -/
def exWRetrySame : World := wOk (JoinOutcome.handlerOk respRetrySame)

/-- World: handler asks for a retry with a changed status but the status
patch fails in transport. -/
def exWRetryErr : World :=
  { join := JoinOutcome.handlerOk respRetryNew
    statusPatchResult := CallResult.transportErr "boom"
    removePatchResult := CallResult.ok
    channelOpen := true }

/-- World: the handler itself fails. -/
def exWHandlerErr : World := wOk (JoinOutcome.handlerErr "boom")

/-- World: the isolated execution cannot be joined. -/
def exWJoinFail : World := wOk JoinOutcome.joinFailure

/-- Short-circuit shape: with the operator's finalizer absent, the trace
is exactly one send attempt carrying `Ok(None)`. -/
theorem trace_short_circuit (h : SyncHandler) (w : World)
    (hf : does_finalizer_exist h.request.parent h.runtime_config = false) :
    handle_finalize h w =
      [Effect.send w.channelOpen (completionMessage h (Except.ok none))] := by
  simp [handle_finalize, get_finalize_result, hf]

/-- Join-failure shape: handler invoked, metric incremented, failure sent. -/
theorem trace_join_failure (h : SyncHandler) (w : World)
    (hf : does_finalizer_exist h.request.parent h.runtime_config = true)
    (hj : w.join = JoinOutcome.joinFailure) :
    handle_finalize h w =
      [Effect.handlerInvoked,
       Effect.metricParentSyncError h.request.parent.get_object_id,
       Effect.send w.channelOpen (completionMessage h (Except.error ()))] := by
  simp [handle_finalize, get_finalize_result, hf, hj]

/-- Handler-error shape: handler invoked, metric incremented, failure
sent; no patch call of either kind. -/
theorem trace_handler_error (h : SyncHandler) (w : World) (e : String)
    (hf : does_finalizer_exist h.request.parent h.runtime_config = true)
    (hj : w.join = JoinOutcome.handlerErr e) :
    handle_finalize h w =
      [Effect.handlerInvoked,
       Effect.metricParentSyncError h.request.parent.get_object_id,
       Effect.send w.channelOpen (completionMessage h (Except.error ()))] := by
  simp [handle_finalize, get_finalize_result, hf, hj]

/-- Terminal shape with a succeeding removal patch: handler invoked, one
finalizer-removal patch, `Ok(None)` sent. -/
theorem trace_finalized_ok (h : SyncHandler) (w : World) (resp : FinalizeResponse)
    (hf : does_finalizer_exist h.request.parent h.runtime_config = true)
    (hj : w.join = JoinOutcome.handlerOk resp)
    (hr : resp.retry = none)
    (hrp : w.removePatchResult = CallResult.ok) :
    handle_finalize h w =
      [Effect.handlerInvoked,
       Effect.removeFinalizerPatch h.runtime_config.parent_type
         h.request.parent.get_object_id
         (Patch.remove_finalizer h.request.parent h.runtime_config.operator_name),
       Effect.send w.channelOpen (completionMessage h (Except.ok none))] := by
  simp [handle_finalize, get_finalize_result, remove_finalizer, hf, hj, hr, hrp]

/-- Terminal shape with a failing removal patch: handler invoked, one
finalizer-removal patch attempt, metric incremented, failure sent. -/
theorem trace_finalized_transport_error (h : SyncHandler) (w : World)
    (resp : FinalizeResponse) (e : String)
    (hf : does_finalizer_exist h.request.parent h.runtime_config = true)
    (hj : w.join = JoinOutcome.handlerOk resp)
    (hr : resp.retry = none)
    (hrp : w.removePatchResult = CallResult.transportErr e) :
    handle_finalize h w =
      [Effect.handlerInvoked,
       Effect.removeFinalizerPatch h.runtime_config.parent_type
         h.request.parent.get_object_id
         (Patch.remove_finalizer h.request.parent h.runtime_config.operator_name),
       Effect.metricParentSyncError h.request.parent.get_object_id,
       Effect.send w.channelOpen (completionMessage h (Except.error ()))] := by
  simp [handle_finalize, get_finalize_result, remove_finalizer, hf, hj, hr, hrp]

/-- Retry shape with an unchanged status: handler invoked, no patch call,
the delay suspension, `Ok(Some(d))` sent. -/
theorem trace_retry_same_status (h : SyncHandler) (w : World)
    (resp : FinalizeResponse) (d : Nat)
    (hf : does_finalizer_exist h.request.parent h.runtime_config = true)
    (hj : w.join = JoinOutcome.handlerOk resp)
    (hr : resp.retry = some d)
    (hst : resp.status = h.request.parent.status) :
    handle_finalize h w =
      [Effect.handlerInvoked,
       Effect.sleep d,
       Effect.send w.channelOpen (completionMessage h (Except.ok (some d)))] := by
  simp [handle_finalize, get_finalize_result, update_status_if_different, hf, hj, hr, hst]

/-- Retry shape with a changed status and a succeeding status patch:
handler invoked, one status patch, the delay suspension, `Ok(Some(d))`
sent. -/
theorem trace_retry_patch_ok (h : SyncHandler) (w : World)
    (resp : FinalizeResponse) (d : Nat)
    (hf : does_finalizer_exist h.request.parent h.runtime_config = true)
    (hj : w.join = JoinOutcome.handlerOk resp)
    (hr : resp.retry = some d)
    (hst : ¬ resp.status = h.request.parent.status)
    (hsp : w.statusPatchResult = CallResult.ok) :
    handle_finalize h w =
      [Effect.handlerInvoked,
       Effect.statusPatch h.runtime_config.parent_type
         h.request.parent.get_object_id resp.status,
       Effect.sleep d,
       Effect.send w.channelOpen (completionMessage h (Except.ok (some d)))] := by
  simp [handle_finalize, get_finalize_result, update_status_if_different, hf, hj, hr, hst, hsp]

/-- Retry shape with a changed status and a failing status patch:
handler invoked, one status patch attempt, no suspension, metric
incremented, failure sent. -/
theorem trace_retry_patch_error (h : SyncHandler) (w : World)
    (resp : FinalizeResponse) (d : Nat) (e : String)
    (hf : does_finalizer_exist h.request.parent h.runtime_config = true)
    (hj : w.join = JoinOutcome.handlerOk resp)
    (hr : resp.retry = some d)
    (hst : ¬ resp.status = h.request.parent.status)
    (hsp : w.statusPatchResult = CallResult.transportErr e) :
    handle_finalize h w =
      [Effect.handlerInvoked,
       Effect.statusPatch h.runtime_config.parent_type
         h.request.parent.get_object_id resp.status,
       Effect.metricParentSyncError h.request.parent.get_object_id,
       Effect.send w.channelOpen (completionMessage h (Except.error ()))] := by
  simp [handle_finalize, get_finalize_result, update_status_if_different, hf, hj, hr, hst, hsp]

/-- C1: for every finalize invocation, regardless of outcome
(short-circuit success, handler success with or without retry, handler
error, transport error, or isolation/join failure), the orchestrator
attempts exactly one completion event, stamped with the resource type,
resource id and index key; its failure result is `Err(())`, carrying no
payload beyond the fact of failure, and `handle_finalize` is a total
function into a trace, so no error propagates past the orchestrator
boundary. -/
theorem finalize_emits_exactly_one_completion (h : SyncHandler) (w : World) :
    ∃ r, completions (handle_finalize h w) = [completionMessage h r] := by
  rcases w with ⟨j, sp, rp, c⟩
  cases hf : does_finalizer_exist h.request.parent h.runtime_config with
  | false =>
      refine ⟨Except.ok none, ?_⟩
      rw [trace_short_circuit h ⟨j, sp, rp, c⟩ hf]
      rfl
  | true =>
      cases j with
      | joinFailure =>
          refine ⟨Except.error (), ?_⟩
          rw [trace_join_failure h ⟨JoinOutcome.joinFailure, sp, rp, c⟩ hf rfl]
          rfl
      | handlerErr e =>
          refine ⟨Except.error (), ?_⟩
          rw [trace_handler_error h ⟨JoinOutcome.handlerErr e, sp, rp, c⟩ e hf rfl]
          rfl
      | handlerOk resp =>
          cases hr : resp.retry with
          | none =>
              cases rp with
              | ok =>
                  refine ⟨Except.ok none, ?_⟩
                  rw [trace_finalized_ok h ⟨JoinOutcome.handlerOk resp, sp, CallResult.ok, c⟩
                    resp hf rfl hr rfl]
                  rfl
              | transportErr e =>
                  refine ⟨Except.error (), ?_⟩
                  rw [trace_finalized_transport_error h
                    ⟨JoinOutcome.handlerOk resp, sp, CallResult.transportErr e, c⟩
                    resp e hf rfl hr rfl]
                  rfl
          | some d =>
              by_cases hst : resp.status = h.request.parent.status
              · refine ⟨Except.ok (some d), ?_⟩
                rw [trace_retry_same_status h ⟨JoinOutcome.handlerOk resp, sp, rp, c⟩
                  resp d hf rfl hr hst]
                rfl
              · cases sp with
                | ok =>
                    refine ⟨Except.ok (some d), ?_⟩
                    rw [trace_retry_patch_ok h
                      ⟨JoinOutcome.handlerOk resp, CallResult.ok, rp, c⟩
                      resp d hf rfl hr hst rfl]
                    rfl
                | transportErr e =>
                    refine ⟨Except.error (), ?_⟩
                    rw [trace_retry_patch_error h
                      ⟨JoinOutcome.handlerOk resp, CallResult.transportErr e, rp, c⟩
                      resp d e hf rfl hr hst rfl]
                    rfl

/-- C2: for every parent on which the operator's finalizer string is not
present, the orchestrator never invokes the handler, issues no patch call
of either kind, and reports success with no retry (outcome `Ok(None)`). -/
theorem finalize_short_circuit (h : SyncHandler) (w : World)
    (hf : does_finalizer_exist h.request.parent h.runtime_config = false) :
    countHandlerCalls (handle_finalize h w) = 0 ∧
    countStatusPatches (handle_finalize h w) = 0 ∧
    countRemovePatches (handle_finalize h w) = 0 ∧
    completions (handle_finalize h w) = [completionMessage h (Except.ok none)] := by
  rw [trace_short_circuit h w hf]
  exact ⟨rfl, rfl, rfl, rfl⟩

/-- Witness for C2 at a concrete parent lacking the operator's finalizer. -/
theorem finalize_short_circuit_witness :
    does_finalizer_exist exHBare.request.parent exHBare.runtime_config = false ∧
    (countHandlerCalls (handle_finalize exHBare exWTerminalOk) = 0 ∧
     countStatusPatches (handle_finalize exHBare exWTerminalOk) = 0 ∧
     countRemovePatches (handle_finalize exHBare exWTerminalOk) = 0 ∧
     completions (handle_finalize exHBare exWTerminalOk) =
       [completionMessage exHBare (Except.ok none)]) :=
  ⟨rfl, finalize_short_circuit exHBare exWTerminalOk rfl⟩

/-- Counterexample to C3 as stated: when the handler succeeds with
`retry = None` but the finalizer-removal patch fails in transport, the
removal call is still the single patch issued, yet the reported outcome
is `Err(())`, not `Ok(None)`, so the claim's conjunction fails. -/
theorem finalize_terminal_outcome_claim_cex :
    ¬ (countRemovePatches (handle_finalize exH exWTerminalErr) = 1 ∧
       countStatusPatches (handle_finalize exH exWTerminalErr) = 0 ∧
       sentResults (handle_finalize exH exWTerminalErr) = [Except.ok none]) := by
  decide

/-- C3 amended: for every attempt in which the handler succeeds with
`retry = None`, exactly one finalizer-removal patch call is issued and no
status patch is issued; if that patch call succeeds the reported outcome
equals `None`, and if it fails with a transport error the completion
reports failure instead. -/
theorem finalize_terminal_outcome_amended (h : SyncHandler) (w : World)
    (resp : FinalizeResponse)
    (hf : does_finalizer_exist h.request.parent h.runtime_config = true)
    (hj : w.join = JoinOutcome.handlerOk resp)
    (hr : resp.retry = none) :
    countRemovePatches (handle_finalize h w) = 1 ∧
    countStatusPatches (handle_finalize h w) = 0 ∧
    Effect.removeFinalizerPatch h.runtime_config.parent_type
      h.request.parent.get_object_id
      (Patch.remove_finalizer h.request.parent h.runtime_config.operator_name)
      ∈ handle_finalize h w ∧
    (w.removePatchResult = CallResult.ok →
      sentResults (handle_finalize h w) = [Except.ok none]) ∧
    (∀ e, w.removePatchResult = CallResult.transportErr e →
      sentResults (handle_finalize h w) = [Except.error ()]) := by
  cases hrp : w.removePatchResult with
  | ok =>
      rw [trace_finalized_ok h w resp hf hj hr hrp]
      refine ⟨rfl, rfl, by simp, fun _ => rfl, ?_⟩
      intro e he
      exact CallResult.noConfusion he
  | transportErr e0 =>
      rw [trace_finalized_transport_error h w resp e0 hf hj hr hrp]
      refine ⟨rfl, rfl, by simp, ?_, fun _ _ => rfl⟩
      intro hok
      exact CallResult.noConfusion hok

/-- Witness for the amended C3 at a concrete terminal attempt whose
removal patch succeeds. -/
theorem finalize_terminal_outcome_amended_witness :
    does_finalizer_exist exH.request.parent exH.runtime_config = true ∧
    exWTerminalOk.join = JoinOutcome.handlerOk respTerminal ∧
    respTerminal.retry = none ∧
    (countRemovePatches (handle_finalize exH exWTerminalOk) = 1 ∧
     countStatusPatches (handle_finalize exH exWTerminalOk) = 0 ∧
     Effect.removeFinalizerPatch exH.runtime_config.parent_type
       exH.request.parent.get_object_id
       (Patch.remove_finalizer exH.request.parent exH.runtime_config.operator_name)
       ∈ handle_finalize exH exWTerminalOk ∧
     (exWTerminalOk.removePatchResult = CallResult.ok →
       sentResults (handle_finalize exH exWTerminalOk) = [Except.ok none]) ∧
     (∀ e, exWTerminalOk.removePatchResult = CallResult.transportErr e →
       sentResults (handle_finalize exH exWTerminalOk) = [Except.error ()])) :=
  ⟨rfl, rfl, rfl, finalize_terminal_outcome_amended exH exWTerminalOk respTerminal rfl rfl rfl⟩

/-- Counterexample to C4 as stated: when the handler succeeds with
`retry = Some(5000)` and a changed status but the status patch fails in
transport, the attempt performs no delay suspension and reports failure
instead of `Ok(Some(5000))`, so the claim's conjunction fails. -/
theorem finalize_retry_claim_cex :
    ¬ (countStatusPatches (handle_finalize exH exWRetryErr) =
         (if respRetryNew.status = exH.request.parent.status then 0 else 1) ∧
       countSleeps (handle_finalize exH exWRetryErr) = 1 ∧
       countRemovePatches (handle_finalize exH exWRetryErr) = 0 ∧
       sentResults (handle_finalize exH exWRetryErr) = [Except.ok (some 5000)]) := by
  decide

/-- C4 amended: for every attempt in which the handler succeeds with
`retry = Some(d)`, the status is conditionally patched (a status patch
call is issued exactly when the handler's status differs from the
resource's current status); provided any issued status patch succeeds,
the attempt performs the delay suspension for `d`, issues no
finalizer-removal patch, and the reported outcome equals `Some(d)`. -/
theorem finalize_retry_amended (h : SyncHandler) (w : World)
    (resp : FinalizeResponse) (d : Nat)
    (hf : does_finalizer_exist h.request.parent h.runtime_config = true)
    (hj : w.join = JoinOutcome.handlerOk resp)
    (hr : resp.retry = some d)
    (hsp : ¬ resp.status = h.request.parent.status →
      w.statusPatchResult = CallResult.ok) :
    countStatusPatches (handle_finalize h w) =
      (if resp.status = h.request.parent.status then 0 else 1) ∧
    countSleeps (handle_finalize h w) = 1 ∧
    Effect.sleep d ∈ handle_finalize h w ∧
    countRemovePatches (handle_finalize h w) = 0 ∧
    sentResults (handle_finalize h w) = [Except.ok (some d)] := by
  by_cases hst : resp.status = h.request.parent.status
  · rw [trace_retry_same_status h w resp d hf hj hr hst]
    refine ⟨?_, rfl, by simp, rfl, rfl⟩
    rw [if_pos hst]
    rfl
  · rw [trace_retry_patch_ok h w resp d hf hj hr hst (hsp hst)]
    refine ⟨?_, rfl, by simp, rfl, rfl⟩
    rw [if_neg hst]
    rfl

/-- Witness for the amended C4 at a concrete retry attempt whose status
differs and whose status patch succeeds. -/
theorem finalize_retry_amended_witness :
    does_finalizer_exist exH.request.parent exH.runtime_config = true ∧
    exWRetryOk.join = JoinOutcome.handlerOk respRetryNew ∧
    respRetryNew.retry = some 5000 ∧
    (¬ respRetryNew.status = exH.request.parent.status →
      exWRetryOk.statusPatchResult = CallResult.ok) ∧
    (countStatusPatches (handle_finalize exH exWRetryOk) =
       (if respRetryNew.status = exH.request.parent.status then 0 else 1) ∧
     countSleeps (handle_finalize exH exWRetryOk) = 1 ∧
     Effect.sleep 5000 ∈ handle_finalize exH exWRetryOk ∧
     countRemovePatches (handle_finalize exH exWRetryOk) = 0 ∧
     sentResults (handle_finalize exH exWRetryOk) = [Except.ok (some 5000)]) :=
  ⟨rfl, rfl, rfl, fun _ => rfl,
    finalize_retry_amended exH exWRetryOk respRetryNew 5000 rfl rfl rfl (fun _ => rfl)⟩

/-- Counterexample to C5 as stated: on a handler error no patch of either
kind is issued, so it is not the case that exactly one of the two patch
calls is issued for every handler outcome. -/
theorem finalize_single_patch_claim_cex :
    ¬ (countStatusPatches (handle_finalize exH exWHandlerErr) +
       countRemovePatches (handle_finalize exH exWHandlerErr) = 1) := by
  decide

/-- C5 amended: for every handler outcome, at most one of {status patch,
finalizer-removal patch} is issued within the attempt — never both — and
neither is issued when the already-finalized short-circuit applies. -/
theorem finalize_at_most_one_patch (h : SyncHandler) (w : World) :
    countStatusPatches (handle_finalize h w) +
      countRemovePatches (handle_finalize h w) ≤ 1 ∧
    (does_finalizer_exist h.request.parent h.runtime_config = false →
      countStatusPatches (handle_finalize h w) = 0 ∧
      countRemovePatches (handle_finalize h w) = 0) := by
  rcases w with ⟨j, sp, rp, c⟩
  cases hf : does_finalizer_exist h.request.parent h.runtime_config with
  | false =>
      rw [trace_short_circuit h ⟨j, sp, rp, c⟩ hf]
      exact ⟨Nat.zero_le 1, fun _ => ⟨rfl, rfl⟩⟩
  | true =>
      constructor
      · cases j with
        | joinFailure =>
            rw [trace_join_failure h ⟨JoinOutcome.joinFailure, sp, rp, c⟩ hf rfl]
            exact Nat.zero_le 1
        | handlerErr e =>
            rw [trace_handler_error h ⟨JoinOutcome.handlerErr e, sp, rp, c⟩ e hf rfl]
            exact Nat.zero_le 1
        | handlerOk resp =>
            cases hr : resp.retry with
            | none =>
                cases rp with
                | ok =>
                    rw [trace_finalized_ok h ⟨JoinOutcome.handlerOk resp, sp, CallResult.ok, c⟩
                      resp hf rfl hr rfl]
                    exact Nat.le_refl 1
                | transportErr e =>
                    rw [trace_finalized_transport_error h
                      ⟨JoinOutcome.handlerOk resp, sp, CallResult.transportErr e, c⟩
                      resp e hf rfl hr rfl]
                    exact Nat.le_refl 1
            | some d =>
                by_cases hst : resp.status = h.request.parent.status
                · rw [trace_retry_same_status h ⟨JoinOutcome.handlerOk resp, sp, rp, c⟩
                    resp d hf rfl hr hst]
                  exact Nat.zero_le 1
                · cases sp with
                  | ok =>
                      rw [trace_retry_patch_ok h
                        ⟨JoinOutcome.handlerOk resp, CallResult.ok, rp, c⟩
                        resp d hf rfl hr hst rfl]
                      exact Nat.le_refl 1
                  | transportErr e =>
                      rw [trace_retry_patch_error h
                        ⟨JoinOutcome.handlerOk resp, CallResult.transportErr e, rp, c⟩
                        resp d e hf rfl hr hst rfl]
                      exact Nat.le_refl 1
      · intro hff
        exact Bool.noConfusion hff

/-- Witness for the amended C5 at a concrete short-circuited attempt. -/
theorem finalize_at_most_one_patch_witness :
    countStatusPatches (handle_finalize exHBare exWTerminalOk) +
      countRemovePatches (handle_finalize exHBare exWTerminalOk) ≤ 1 ∧
    (does_finalizer_exist exHBare.request.parent exHBare.runtime_config = false →
      countStatusPatches (handle_finalize exHBare exWTerminalOk) = 0 ∧
      countRemovePatches (handle_finalize exHBare exWTerminalOk) = 0) :=
  finalize_at_most_one_patch exHBare exWTerminalOk

/-- C6: for every attempt in which the handler returns an error, zero
patch calls are issued, the per-parent error metric is incremented
exactly once, and the completion event reports failure (`Err`). -/
theorem finalize_handler_error_isolation (h : SyncHandler) (w : World) (e : String)
    (hf : does_finalizer_exist h.request.parent h.runtime_config = true)
    (hj : w.join = JoinOutcome.handlerErr e) :
    countStatusPatches (handle_finalize h w) = 0 ∧
    countRemovePatches (handle_finalize h w) = 0 ∧
    countMetrics (handle_finalize h w) = 1 ∧
    Effect.metricParentSyncError h.request.parent.get_object_id ∈ handle_finalize h w ∧
    sentResults (handle_finalize h w) = [Except.error ()] := by
  rw [trace_handler_error h w e hf hj]
  exact ⟨rfl, rfl, rfl, by simp, rfl⟩

/-- Witness for C6 at a concrete attempt whose handler errors. -/
theorem finalize_handler_error_isolation_witness :
    does_finalizer_exist exH.request.parent exH.runtime_config = true ∧
    exWHandlerErr.join = JoinOutcome.handlerErr "boom" ∧
    (countStatusPatches (handle_finalize exH exWHandlerErr) = 0 ∧
     countRemovePatches (handle_finalize exH exWHandlerErr) = 0 ∧
     countMetrics (handle_finalize exH exWHandlerErr) = 1 ∧
     Effect.metricParentSyncError exH.request.parent.get_object_id
       ∈ handle_finalize exH exWHandlerErr ∧
     sentResults (handle_finalize exH exWHandlerErr) = [Except.error ()]) :=
  ⟨rfl, rfl, finalize_handler_error_isolation exH exWHandlerErr "boom" rfl rfl⟩

/-- C7: for every attempt in which the handler succeeds with
`retry = Some(d)` and the status it computed equals the parent's current
status, no status patch call is issued. -/
theorem finalize_status_noop_avoidance (h : SyncHandler) (w : World)
    (resp : FinalizeResponse) (d : Nat)
    (hf : does_finalizer_exist h.request.parent h.runtime_config = true)
    (hj : w.join = JoinOutcome.handlerOk resp)
    (hr : resp.retry = some d)
    (hst : resp.status = h.request.parent.status) :
    countStatusPatches (handle_finalize h w) = 0 := by
  rw [trace_retry_same_status h w resp d hf hj hr hst]
  rfl

/-- Witness for C7 at a concrete retry attempt whose computed status
equals the current one. -/
theorem finalize_status_noop_avoidance_witness :
    does_finalizer_exist exH.request.parent exH.runtime_config = true ∧
    exWRetrySame.join = JoinOutcome.handlerOk respRetrySame ∧
    respRetrySame.retry = some 5000 ∧
    respRetrySame.status = exH.request.parent.status ∧
    countStatusPatches (handle_finalize exH exWRetrySame) = 0 :=
  ⟨rfl, rfl, rfl, rfl,
    finalize_status_noop_avoidance exH exWRetrySame respRetrySame 5000 rfl rfl rfl rfl⟩

/-- Channel independence of `get_finalize_result`: the protocol up to the
completion send never consults the channel state. -/
theorem get_finalize_result_ignores_channel (request : SyncRequest)
    (j : JoinOutcome) (sp rp : CallResult) (b bb : Bool) (rc : RuntimeConfig) :
    get_finalize_result request ⟨j, sp, rp, b⟩ rc =
    get_finalize_result request ⟨j, sp, rp, bb⟩ rc := rfl

/-- C8: a failed completion send (closed channel) is swallowed: the
attempt performs exactly the same work and constructs the same completion
message whether or not the channel is open — only the recorded delivery
flag differs — and `handle_finalize` returns a trace normally in both
cases, so no error or crash results. -/
theorem finalize_send_failure_swallowed (h : SyncHandler) (w : World) :
    stripDelivered (handle_finalize h { w with channelOpen := false }) =
    stripDelivered (handle_finalize h { w with channelOpen := true }) ∧
    completions (handle_finalize h { w with channelOpen := false }) =
    completions (handle_finalize h { w with channelOpen := true }) := by
  rcases w with ⟨j, sp, rp, c⟩
  show stripDelivered (handle_finalize h ⟨j, sp, rp, false⟩) =
      stripDelivered (handle_finalize h ⟨j, sp, rp, true⟩) ∧
    completions (handle_finalize h ⟨j, sp, rp, false⟩) =
      completions (handle_finalize h ⟨j, sp, rp, true⟩)
  unfold handle_finalize
  rw [get_finalize_result_ignores_channel h.request j sp rp false true h.runtime_config]
  rcases hgr : get_finalize_result h.request ⟨j, sp, rp, true⟩ h.runtime_config with ⟨res, eff⟩
  cases res with
  | ok retry => constructor <;> simp [stripDelivered, completions]
  | error err => constructor <;> simp [stripDelivered, completions]

/-- C9: for every attempt in which the isolated execution cannot be
joined, the outcome is handled identically to a handler error: no patch
call is issued, the per-parent error metric is incremented exactly once,
the completion event reports failure (`Err`), and the whole trace equals
the trace of the same attempt with any handler error. -/
theorem finalize_join_failure_like_handler_error (h : SyncHandler) (w : World)
    (hf : does_finalizer_exist h.request.parent h.runtime_config = true)
    (hj : w.join = JoinOutcome.joinFailure) :
    countStatusPatches (handle_finalize h w) = 0 ∧
    countRemovePatches (handle_finalize h w) = 0 ∧
    countMetrics (handle_finalize h w) = 1 ∧
    sentResults (handle_finalize h w) = [Except.error ()] ∧
    (∀ e, handle_finalize h w =
      handle_finalize h { w with join := JoinOutcome.handlerErr e }) := by
  rw [trace_join_failure h w hf hj]
  refine ⟨rfl, rfl, rfl, rfl, ?_⟩
  intro e
  rw [trace_handler_error h { w with join := JoinOutcome.handlerErr e } e hf rfl]

/-- Witness for C9 at a concrete attempt whose join fails. -/
theorem finalize_join_failure_like_handler_error_witness :
    does_finalizer_exist exH.request.parent exH.runtime_config = true ∧
    exWJoinFail.join = JoinOutcome.joinFailure ∧
    (countStatusPatches (handle_finalize exH exWJoinFail) = 0 ∧
     countRemovePatches (handle_finalize exH exWJoinFail) = 0 ∧
     countMetrics (handle_finalize exH exWJoinFail) = 1 ∧
     sentResults (handle_finalize exH exWJoinFail) = [Except.error ()] ∧
     (∀ e, handle_finalize exH exWJoinFail =
       handle_finalize exH { exWJoinFail with join := JoinOutcome.handlerErr e })) :=
  ⟨rfl, rfl, finalize_join_failure_like_handler_error exH exWJoinFail rfl rfl⟩

/-- C10: for every attempt in which the handler succeeds with
`retry = Some(d)` but the status patch call fails with a transport error,
the attempt performs no delay suspension, issues no finalizer-removal
patch, and the completion event reports failure (`Err`) rather than
`Ok(Some(d))`. -/
theorem finalize_status_patch_failure_aborts (h : SyncHandler) (w : World)
    (resp : FinalizeResponse) (d : Nat) (e : String)
    (hf : does_finalizer_exist h.request.parent h.runtime_config = true)
    (hj : w.join = JoinOutcome.handlerOk resp)
    (hr : resp.retry = some d)
    (hst : ¬ resp.status = h.request.parent.status)
    (hsp : w.statusPatchResult = CallResult.transportErr e) :
    countSleeps (handle_finalize h w) = 0 ∧
    countRemovePatches (handle_finalize h w) = 0 ∧
    sentResults (handle_finalize h w) = [Except.error ()] := by
  rw [trace_retry_patch_error h w resp d e hf hj hr hst hsp]
  exact ⟨rfl, rfl, rfl⟩

/-- Witness for C10 at a concrete retry attempt whose status patch fails
in transport. -/
theorem finalize_status_patch_failure_aborts_witness :
    does_finalizer_exist exH.request.parent exH.runtime_config = true ∧
    exWRetryErr.join = JoinOutcome.handlerOk respRetryNew ∧
    respRetryNew.retry = some 5000 ∧
    (¬ respRetryNew.status = exH.request.parent.status) ∧
    exWRetryErr.statusPatchResult = CallResult.transportErr "boom" ∧
    (countSleeps (handle_finalize exH exWRetryErr) = 0 ∧
     countRemovePatches (handle_finalize exH exWRetryErr) = 0 ∧
     sentResults (handle_finalize exH exWRetryErr) = [Except.error ()]) :=
  ⟨rfl, rfl, rfl, by decide, rfl,
    finalize_status_patch_failure_aborts exH exWRetryErr respRetryNew 5000 "boom"
      rfl rfl rfl (by decide) rfl⟩
